import Mathlib

set_option maxHeartbeats 1000000
set_option maxRecDepth 100000

/-!
Shallow embedding of the resilient image-generation wrapper implemented in
`src/backend/src/controllers/orders.ts` (`generateProductImage` together with
its helpers `createCacheKey`, `enforceRateLimit`, the module-level
`imageCache` and `lastApiCall`).

Modelling conventions:
* Timestamps are integers in milliseconds.  The wall clock is threaded
  explicitly through the state and `sleep ms` advances it by exactly `ms`
  (an idealized sequential execution).
* The external cache library (`node-cache` with `stdTTL = 3600`) is modelled
  as an association list from keys to entries carrying an absolute expiry
  timestamp (`set` time + 3600 * 1000 ms); a read returns the entry exactly
  when the current time has not passed the expiry, which is the observable
  behaviour of the library's lazy expiry check.
* The outbound HTTP call (`axios.post`) is an oracle mapping the attempt
  number to either a success payload (`response.data.data[0]`) or an error
  (with the optional `error.response.data.error.message` and the plain
  `error.message`).
* Strings are treated at the character level; the prompt normalization in
  `createCacheKey` is modelled for the ASCII fragment, where JavaScript's
  `toLowerCase`, `replace(/[^a-z0-9]/g, '_')` and `substring(0, 50)` agree
  with the per-character model used here.
* Every observable action of a run is recorded in an event trace:
  cache reads/writes, rate-limit waits, outbound call starts (with their
  start time and attempt number) and backoff sleeps.
-/

/-- Options record of the wrapper (`ImageGenerationOptions` in the source);
all fields are optional and defaulted at the use sites exactly as the
source destructuring does. -/
structure ImageGenerationOptions where
  model : Option String := none
  size : Option String := none
  quality : Option String := none
  style : Option String := none
  maxRetries : Option Int := none
  useCache : Option Bool := none
deriving Repr, DecidableEq

/-- Result record of the wrapper (`ImageGenerationResult` in the source). -/
structure ImageGenerationResult where
  imageUrl : String
  revisedPrompt : Option String
  fromCache : Bool
  attempts : Int
deriving Repr, DecidableEq

/-- A thrown JavaScript `Error` with its message and the `cause.status`
annotation used by the source. -/
structure JsError where
  message : String
  status : Option Int
deriving Repr, DecidableEq

/-- Successful payload of the outbound call: `response.data.data[0]`. -/
structure ApiOk where
  url : String
  revisedPrompt : Option String
deriving Repr, DecidableEq

/-- Failure of the outbound call: `error.response?.data?.error?.message`
(absent when there is no structured response) and `error.message`. -/
structure ApiError where
  responseMessage : Option String
  message : String
deriving Repr, DecidableEq

/-- One stored cache entry: the stored value and its absolute expiry time. -/
structure CacheEntry where
  value : ImageGenerationResult
  expiresAt : Int
deriving Repr, DecidableEq

/-- The `node-cache` standard TTL of the module: 3600 seconds, in ms. -/
def STD_TTL_MS : Int := 3600 * 1000

/-- `MIN_DELAY = 1000` ms between outbound calls. -/
def MIN_DELAY : Int := 1000

/-- Read of the TTL cache: the entry for `key` is returned exactly when the
current time has not passed its expiry (lazy expiry on read). -/
def cacheGet (cache : List (String × CacheEntry)) (key : String) (now : Int) :
    Option ImageGenerationResult :=
  match cache.find? (fun kv => kv.1 == key) with
  | some kv => if kv.2.expiresAt < now then none else some kv.2.value
  | none => none

/-- Write of the TTL cache: stores `value` under `key` with a fresh TTL of
`STD_TTL_MS` from the current time, replacing any previous binding. -/
def cacheSet (cache : List (String × CacheEntry)) (key : String)
    (value : ImageGenerationResult) (now : Int) : List (String × CacheEntry) :=
  (key, ⟨value, now + STD_TTL_MS⟩) :: cache.filter (fun kv => kv.1 != key)

/-- Character step of `prompt.toLowerCase().replace(/[^a-z0-9]/g, '_')`:
keep lowercase ASCII letters and digits, replace anything else by `_`. -/
def sanitizeChar (c : Char) : Char :=
  if ('a' ≤ c ∧ c ≤ 'z') ∨ ('0' ≤ c ∧ c ≤ '9') then c else '_'

/-- Prompt normalization of `createCacheKey`: lowercase, replace characters
outside `[a-z0-9]` by `_`, keep only the first 50 characters. -/
def sanitizePrompt (prompt : String) : String :=
  String.mk (((prompt.data.map Char.toLower).map sanitizeChar).take 50)

/-- `createCacheKey` from the source: defaults the option fields, then
concatenates them with the normalized prompt. -/
def createCacheKey (prompt : String) (options : ImageGenerationOptions) : String :=
  let model := options.model.getD "dall-e-3"
  let size := options.size.getD "1024x1024"
  let quality := options.quality.getD "standard"
  let style := options.style.getD "vivid"
  "image_" ++ model ++ "_" ++ size ++ "_" ++ quality ++ "_" ++ style ++ "_" ++
    sanitizePrompt prompt

/-- Wait computed by `enforceRateLimit`: when less than `MIN_DELAY` has
passed since `lastApiCall`, sleep for the remainder; otherwise do not
sleep. -/
def rateWaitTime (now lastApiCall : Int) : Int :=
  if now - lastApiCall < MIN_DELAY then MIN_DELAY - (now - lastApiCall) else 0

/-- `enforceRateLimit` from the source: returns the clock after the wait and
the updated `lastApiCall` (set to `Date.now()` taken after the wait). -/
def enforceRateLimit (now lastApiCall : Int) : Int × Int :=
  (now + rateWaitTime now lastApiCall, now + rateWaitTime now lastApiCall)

/-- JavaScript truthiness of the `OPENAI_API_KEY` string environment
variable: present and non-empty. -/
def jsTruthy : Option String → Bool
  | none => false
  | some s => s != ""

/-- JavaScript `a || b` on an optional string `a` (empty string is falsy). -/
def jsStrOrElse (a : Option String) (b : String) : String :=
  match a with
  | some s => if s = "" then b else s
  | none => b

/-- Message derivation of the final failure:
`lastError?.response?.data?.error?.message || lastError?.message || 'Unknown error'`. -/
def finalMsg : Option ApiError → String
  | none => "Unknown error"
  | some e => jsStrOrElse e.responseMessage (jsStrOrElse (some e.message) "Unknown error")

/-- The terminal exhausted-retries error thrown by the source after the
retry loop, annotated with status 500. -/
def mkExhausted (maxRetries : Int) (lastError : Option ApiError) : JsError :=
  ⟨"Failed to generate image after " ++ toString maxRetries ++ " attempts: " ++
      finalMsg lastError, some 500⟩

/-- Observable actions of one wrapper call, in execution order. -/
inductive Event where
  | cacheRead (key : String) (hit : Bool)
  | cacheWrite (key : String)
  | rateLimitWait (ms : Int)
  | outbound (time : Int) (attempt : Int)
  | backoffSleep (ms : Int)
deriving Repr, DecidableEq

/-- Mutable module state of the wrapper: the clock, the `lastApiCall`
timestamp and the `imageCache` contents. -/
structure WrapperState where
  now : Int
  lastApiCall : Int
  cache : List (String × CacheEntry)
deriving Repr, DecidableEq

deriving instance DecidableEq for Except

/-- Outcome of one wrapper call: what it returns or throws, the final
module state and the trace of observable actions. -/
structure RunOutput where
  result : Except JsError ImageGenerationResult
  state : WrapperState
  events : List Event
deriving Repr, DecidableEq

/-- Events produced by `enforceRateLimit`: a single wait when the computed
wait is positive, nothing otherwise. -/
def rateEvents (wait : Int) : List Event :=
  if 0 < wait then [Event.rateLimitWait wait] else []

/-- The retry loop `for (attempt = 1; attempt <= maxRetries; attempt++)` of
`generateProductImage`.  `fuel` is the number of remaining loop iterations
(`max 0 (maxRetries - attempt + 1)` at every call site); the loop-exit path
(condition false) returns the exhausted error built from the current
`lastError`, exactly like the code after the loop. -/
def retryLoop (api : Int → Except ApiError ApiOk) (prompt : String)
    (opts : ImageGenerationOptions) (useCache : Bool) (maxRetries : Int) :
    Int → Nat → Option ApiError → WrapperState → RunOutput
  | _, 0, lastError, st =>
    ⟨Except.error (mkExhausted maxRetries lastError), st, []⟩
  | attempt, fuel + 1, _, st =>
    let wait := rateWaitTime st.now st.lastApiCall
    let now1 := st.now + wait
    match api attempt with
    | Except.ok payload =>
      let result : ImageGenerationResult :=
        ⟨payload.url, payload.revisedPrompt, false, attempt⟩
      if useCache then
        ⟨Except.ok result,
          ⟨now1, now1, cacheSet st.cache (createCacheKey prompt opts) result now1⟩,
          rateEvents wait ++ [Event.outbound now1 attempt,
            Event.cacheWrite (createCacheKey prompt opts)]⟩
      else
        ⟨Except.ok result, ⟨now1, now1, st.cache⟩,
          rateEvents wait ++ [Event.outbound now1 attempt]⟩
    | Except.error e =>
      if attempt = maxRetries then
        ⟨Except.error (mkExhausted maxRetries (some e)), ⟨now1, now1, st.cache⟩,
          rateEvents wait ++ [Event.outbound now1 attempt]⟩
      else
        let backoff : Int := 2 ^ attempt.toNat * 1000
        let rest := retryLoop api prompt opts useCache maxRetries (attempt + 1) fuel
          (some e) ⟨now1 + backoff, now1, st.cache⟩
        ⟨rest.result, rest.state,
          rateEvents wait ++ Event.outbound now1 attempt ::
            Event.backoffSleep backoff :: rest.events⟩

/-- `generateProductImage` from the source: input/configuration checks,
optional cache lookup, then the retry loop. -/
def generateProductImage (api : Int → Except ApiError ApiOk) (apiKey : Option String)
    (prompt : String) (options : ImageGenerationOptions) (st : WrapperState) :
    RunOutput :=
  if prompt = "" then
    ⟨Except.error ⟨"Prompt is required", some 400⟩, st, []⟩
  else if jsTruthy apiKey = false then
    ⟨Except.error ⟨"OpenAI API key not configured", some 500⟩, st, []⟩
  else if options.useCache.getD true then
    match cacheGet st.cache (createCacheKey prompt options) st.now with
    | some cached =>
      ⟨Except.ok { cached with fromCache := true, attempts := 0 }, st,
        [Event.cacheRead (createCacheKey prompt options) true]⟩
    | none =>
      let out := retryLoop api prompt options true (options.maxRetries.getD 3) 1
        (options.maxRetries.getD 3).toNat none st
      ⟨out.result, out.state,
        Event.cacheRead (createCacheKey prompt options) false :: out.events⟩
  else
    retryLoop api prompt options false (options.maxRetries.getD 3) 1
      (options.maxRetries.getD 3).toNat none st

/-- Test for the outbound-call event. -/
def isOutbound : Event → Bool
  | Event.outbound _ _ => true
  | _ => false

/-- Number of outbound calls recorded in a trace. -/
def countOutbound (evs : List Event) : Nat :=
  (evs.filter isOutbound).length

/-- Backoff sleep durations recorded in a trace, in order. -/
def backoffSleeps (evs : List Event) : List Int :=
  evs.filterMap fun e =>
    match e with
    | Event.backoffSleep ms => some ms
    | _ => none

/-- Keys of cache writes recorded in a trace, in order. -/
def cacheWrites (evs : List Event) : List String :=
  evs.filterMap fun e =>
    match e with
    | Event.cacheWrite k => some k
    | _ => none

/-- Keys of cache reads recorded in a trace, in order. -/
def cacheReads (evs : List Event) : List String :=
  evs.filterMap fun e =>
    match e with
    | Event.cacheRead k _ => some k
    | _ => none

/-- Start times of outbound calls recorded in a trace, in order. -/
def outboundTimes (evs : List Event) : List Int :=
  evs.filterMap fun e =>
    match e with
    | Event.outbound t _ => some t
    | _ => none

/-- Times `t₀ :: ts` are separated when each element of `ts` is at least
`MIN_DELAY` after its predecessor (with `t₀` the reference point). -/
def separatedB : Int → List Int → Bool
  | _, [] => true
  | last, t :: ts => (decide (last + MIN_DELAY ≤ t)) && separatedB t ts

/-! Trace bookkeeping lemmas. -/

@[simp]
theorem countOutbound_nil : countOutbound [] = 0 := rfl

@[simp]
theorem countOutbound_append (a b : List Event) :
    countOutbound (a ++ b) = countOutbound a + countOutbound b := by
  simp [countOutbound, List.filter_append]

@[simp]
theorem countOutbound_rateEvents (w : Int) : countOutbound (rateEvents w) = 0 := by
  unfold rateEvents
  split <;> rfl

@[simp]
theorem countOutbound_cons_read (k : String) (h : Bool) (evs : List Event) :
    countOutbound (Event.cacheRead k h :: evs) = countOutbound evs := rfl

@[simp]
theorem countOutbound_cons_write (k : String) (evs : List Event) :
    countOutbound (Event.cacheWrite k :: evs) = countOutbound evs := rfl

@[simp]
theorem countOutbound_cons_outbound (t a : Int) (evs : List Event) :
    countOutbound (Event.outbound t a :: evs) = countOutbound evs + 1 := by
  simp [countOutbound, List.filter_cons, isOutbound]

@[simp]
theorem countOutbound_cons_sleep (m : Int) (evs : List Event) :
    countOutbound (Event.backoffSleep m :: evs) = countOutbound evs := rfl

@[simp]
theorem backoffSleeps_nil : backoffSleeps [] = [] := rfl

@[simp]
theorem backoffSleeps_append (a b : List Event) :
    backoffSleeps (a ++ b) = backoffSleeps a ++ backoffSleeps b := by
  simp [backoffSleeps, List.filterMap_append]

@[simp]
theorem backoffSleeps_rateEvents (w : Int) : backoffSleeps (rateEvents w) = [] := by
  unfold rateEvents
  split <;> rfl

@[simp]
theorem backoffSleeps_cons_read (k : String) (h : Bool) (evs : List Event) :
    backoffSleeps (Event.cacheRead k h :: evs) = backoffSleeps evs := rfl

@[simp]
theorem backoffSleeps_cons_write (k : String) (evs : List Event) :
    backoffSleeps (Event.cacheWrite k :: evs) = backoffSleeps evs := rfl

@[simp]
theorem backoffSleeps_cons_outbound (t a : Int) (evs : List Event) :
    backoffSleeps (Event.outbound t a :: evs) = backoffSleeps evs := rfl

@[simp]
theorem backoffSleeps_cons_sleep (m : Int) (evs : List Event) :
    backoffSleeps (Event.backoffSleep m :: evs) = m :: backoffSleeps evs := rfl

@[simp]
theorem cacheWrites_nil : cacheWrites [] = [] := rfl

@[simp]
theorem cacheWrites_append (a b : List Event) :
    cacheWrites (a ++ b) = cacheWrites a ++ cacheWrites b := by
  simp [cacheWrites, List.filterMap_append]

@[simp]
theorem cacheWrites_rateEvents (w : Int) : cacheWrites (rateEvents w) = [] := by
  unfold rateEvents
  split <;> rfl

@[simp]
theorem cacheWrites_cons_read (k : String) (h : Bool) (evs : List Event) :
    cacheWrites (Event.cacheRead k h :: evs) = cacheWrites evs := rfl

@[simp]
theorem cacheWrites_cons_write (k : String) (evs : List Event) :
    cacheWrites (Event.cacheWrite k :: evs) = k :: cacheWrites evs := rfl

@[simp]
theorem cacheWrites_cons_outbound (t a : Int) (evs : List Event) :
    cacheWrites (Event.outbound t a :: evs) = cacheWrites evs := rfl

@[simp]
theorem cacheWrites_cons_sleep (m : Int) (evs : List Event) :
    cacheWrites (Event.backoffSleep m :: evs) = cacheWrites evs := rfl

@[simp]
theorem cacheReads_nil : cacheReads [] = [] := rfl

@[simp]
theorem cacheReads_append (a b : List Event) :
    cacheReads (a ++ b) = cacheReads a ++ cacheReads b := by
  simp [cacheReads, List.filterMap_append]

@[simp]
theorem cacheReads_rateEvents (w : Int) : cacheReads (rateEvents w) = [] := by
  unfold rateEvents
  split <;> rfl

@[simp]
theorem cacheReads_cons_read (k : String) (h : Bool) (evs : List Event) :
    cacheReads (Event.cacheRead k h :: evs) = k :: cacheReads evs := rfl

@[simp]
theorem cacheReads_cons_write (k : String) (evs : List Event) :
    cacheReads (Event.cacheWrite k :: evs) = cacheReads evs := rfl

@[simp]
theorem cacheReads_cons_outbound (t a : Int) (evs : List Event) :
    cacheReads (Event.outbound t a :: evs) = cacheReads evs := rfl

@[simp]
theorem cacheReads_cons_sleep (m : Int) (evs : List Event) :
    cacheReads (Event.backoffSleep m :: evs) = cacheReads evs := rfl

@[simp]
theorem outboundTimes_nil : outboundTimes [] = [] := rfl

@[simp]
theorem outboundTimes_append (a b : List Event) :
    outboundTimes (a ++ b) = outboundTimes a ++ outboundTimes b := by
  simp [outboundTimes, List.filterMap_append]

@[simp]
theorem outboundTimes_rateEvents (w : Int) : outboundTimes (rateEvents w) = [] := by
  unfold rateEvents
  split <;> rfl

@[simp]
theorem outboundTimes_cons_read (k : String) (h : Bool) (evs : List Event) :
    outboundTimes (Event.cacheRead k h :: evs) = outboundTimes evs := rfl

@[simp]
theorem outboundTimes_cons_write (k : String) (evs : List Event) :
    outboundTimes (Event.cacheWrite k :: evs) = outboundTimes evs := rfl

@[simp]
theorem outboundTimes_cons_outbound (t a : Int) (evs : List Event) :
    outboundTimes (Event.outbound t a :: evs) = t :: outboundTimes evs := rfl

@[simp]
theorem outboundTimes_cons_sleep (m : Int) (evs : List Event) :
    outboundTimes (Event.backoffSleep m :: evs) = outboundTimes evs := rfl

/-- The clock value reached after the rate-limit wait is at least
`MIN_DELAY` past the previous `lastApiCall`. -/
theorem rateWait_lower (now last : Int) :
    last + MIN_DELAY ≤ now + rateWaitTime now last := by
  simp only [rateWaitTime, MIN_DELAY]
  split <;> omega

/-- The rate-limit wait equals `max 0 (lastApiCall + MIN_DELAY - now)`. -/
theorem rateWaitTime_eq_max (now last : Int) :
    rateWaitTime now last = max 0 (last + MIN_DELAY - now) := by
  simp only [rateWaitTime, MIN_DELAY]
  split <;> omega

/-! Characterization lemmas for the retry loop. -/

/-- When every outbound attempt fails, a loop entered with the standing
invariant (`attempt + fuel = maxRetries + 1`, counters at least one) throws
the exhausted error built from the last attempt's failure, leaves the cache
untouched, performs exactly `fuel` outbound calls, sleeps the exponential
backoff schedule `2^attempt, 2^(attempt+1), ...` between attempts, and
never touches the cache. -/
theorem retryLoop_allFail (api : Int → Except ApiError ApiOk) (e : Int → ApiError)
    (prompt : String) (opts : ImageGenerationOptions) (useCache : Bool)
    (maxRetries : Int) (hfail : ∀ k, api k = Except.error (e k)) :
    ∀ (fuel : Nat) (attempt : Int) (lastError : Option ApiError)
      (st : WrapperState) (out : RunOutput),
      retryLoop api prompt opts useCache maxRetries attempt fuel lastError st = out →
      1 ≤ fuel → attempt + (fuel : Int) = maxRetries + 1 → 1 ≤ attempt →
      out.result = Except.error (mkExhausted maxRetries (some (e maxRetries)))
      ∧ out.state.cache = st.cache
      ∧ countOutbound out.events = fuel
      ∧ backoffSleeps out.events
          = (List.range (fuel - 1)).map (fun i => (2 : Int) ^ (attempt.toNat + i) * 1000)
      ∧ cacheWrites out.events = []
      ∧ cacheReads out.events = [] := by
  intro fuel
  induction fuel with
  | zero =>
    intro attempt lastError st out hout h1 h2 h3
    exact absurd h1 (by omega)
  | succ n ih =>
    intro attempt lastError st out hout h1 h2 h3
    simp only [retryLoop, hfail attempt] at hout
    by_cases hA : attempt = maxRetries
    · have hn : n = 0 := by omega
      subst hn
      rw [if_pos hA] at hout
      subst hout
      subst hA
      refine ⟨rfl, rfl, by simp, by simp, by simp, by simp⟩
    · rw [if_neg hA] at hout
      have hn1 : 1 ≤ n := by omega
      obtain ⟨hres, hcache, hcount, hsleep, hw, hr⟩ :=
        ih (attempt + 1) (some (e attempt)) _ _ rfl hn1 (by push_cast at h2 ⊢; omega)
          (by omega)
      subst hout
      refine ⟨hres, hcache, ?_, ?_, by simp [hw], by simp [hr]⟩
      · simp [hcount]
      · obtain ⟨m, hm⟩ : ∃ m, n = m + 1 := ⟨n - 1, by omega⟩
        subst hm
        simp only [backoffSleeps_append, backoffSleeps_rateEvents,
          backoffSleeps_cons_outbound, backoffSleeps_cons_sleep, List.nil_append, hsleep]
        have htn : (attempt + 1).toNat = attempt.toNat + 1 := by omega
        have harith : ∀ i : ℕ, attempt.toNat + 1 + i = attempt.toNat + (i + 1) := by
          intro i; omega
        rw [htn]
        simp only [Nat.add_eq, Nat.succ_sub_one, List.range_succ_eq_map, List.map_cons,
          List.map_map]
        congr 1
        apply List.map_congr_left
        simp only [Function.comp_apply, Nat.succ_eq_add_one, List.mem_range]
        intro i hi
        have hx : attempt.toNat + 1 + i = attempt.toNat + (i + 1) := by omega
        rw [hx]


/-- A loop run that returns a value built it on the outbound path
(`fromCache = false`); with caching enabled the final cache is the initial
cache plus the result stored under the derived key with a fresh TTL at the
final clock (the write moment), and exactly that one write is traced; with
caching disabled the cache is untouched.  The loop itself never reads the
cache. -/
theorem retryLoop_ok (api : Int → Except ApiError ApiOk) (prompt : String)
    (opts : ImageGenerationOptions) (useCache : Bool) (maxRetries : Int) :
    ∀ (fuel : Nat) (attempt : Int) (lastError : Option ApiError)
      (st : WrapperState) (out : RunOutput) (r : ImageGenerationResult),
      retryLoop api prompt opts useCache maxRetries attempt fuel lastError st = out →
      out.result = Except.ok r →
      r.fromCache = false
      ∧ (useCache = true →
          out.state.cache
            = cacheSet st.cache (createCacheKey prompt opts) r out.state.now
          ∧ cacheWrites out.events = [createCacheKey prompt opts])
      ∧ (useCache = false → out.state.cache = st.cache ∧ cacheWrites out.events = [])
      ∧ cacheReads out.events = [] := by
  intro fuel
  induction fuel with
  | zero =>
    intro attempt lastError st out r hout hres
    subst hout
    simp only [retryLoop] at hres
    exact Except.noConfusion hres
  | succ n ih =>
    intro attempt lastError st out r hout hres
    simp only [retryLoop] at hout
    cases hapi : api attempt with
    | ok payload =>
      simp only [hapi] at hout
      by_cases hu : useCache = true
      · rw [if_pos hu] at hout
        subst hout
        obtain rfl : (⟨payload.url, payload.revisedPrompt, false, attempt⟩ :
            ImageGenerationResult) = r := by
          simpa using hres
        refine ⟨rfl, fun _ => ⟨rfl, by simp⟩, fun h => by simp [hu] at h, by simp⟩
      · rw [if_neg hu] at hout
        subst hout
        obtain rfl : (⟨payload.url, payload.revisedPrompt, false, attempt⟩ :
            ImageGenerationResult) = r := by
          simpa using hres
        refine ⟨rfl, fun h => absurd h hu, fun _ => ⟨rfl, by simp⟩, by simp⟩
    | error e =>
      simp only [hapi] at hout
      by_cases hA : attempt = maxRetries
      · rw [if_pos hA] at hout
        subst hout
        exact Except.noConfusion hres
      · rw [if_neg hA] at hout
        subst hout
        obtain ⟨h1, h2, h3, h4⟩ := ih (attempt + 1) (some e) _ _ r rfl hres
        refine ⟨h1, ?_, ?_, by simp [h4]⟩
        · intro hu
          obtain ⟨ha, hb⟩ := h2 hu
          exact ⟨ha, by simp [hb]⟩
        · intro hu
          obtain ⟨ha, hb⟩ := h3 hu
          exact ⟨ha, by simp [hb]⟩

/-- A loop run that throws leaves the cache exactly as it found it and
traces no cache access at all. -/
theorem retryLoop_err (api : Int → Except ApiError ApiOk) (prompt : String)
    (opts : ImageGenerationOptions) (useCache : Bool) (maxRetries : Int) :
    ∀ (fuel : Nat) (attempt : Int) (lastError : Option ApiError)
      (st : WrapperState) (out : RunOutput) (err : JsError),
      retryLoop api prompt opts useCache maxRetries attempt fuel lastError st = out →
      out.result = Except.error err →
      out.state.cache = st.cache ∧ cacheWrites out.events = []
      ∧ cacheReads out.events = [] := by
  intro fuel
  induction fuel with
  | zero =>
    intro attempt lastError st out err hout hres
    subst hout
    exact ⟨rfl, rfl, rfl⟩
  | succ n ih =>
    intro attempt lastError st out err hout hres
    simp only [retryLoop] at hout
    cases hapi : api attempt with
    | ok payload =>
      simp only [hapi] at hout
      by_cases hu : useCache = true
      · rw [if_pos hu] at hout
        subst hout
        exact Except.noConfusion hres
      · rw [if_neg hu] at hout
        subst hout
        exact Except.noConfusion hres
    | error e =>
      simp only [hapi] at hout
      by_cases hA : attempt = maxRetries
      · rw [if_pos hA] at hout
        subst hout
        exact ⟨rfl, by simp, by simp⟩
      · rw [if_neg hA] at hout
        subst hout
        obtain ⟨h1, h2, h3⟩ := ih (attempt + 1) (some e) _ _ err rfl hres
        exact ⟨h1, by simp [h2], by simp [h3]⟩

/-- A loop entered with at least one remaining iteration performs at least
one outbound call. -/
theorem retryLoop_pos (api : Int → Except ApiError ApiOk) (prompt : String)
    (opts : ImageGenerationOptions) (useCache : Bool) (maxRetries : Int)
    (fuel : Nat) (attempt : Int) (lastError : Option ApiError)
    (st : WrapperState) (out : RunOutput)
    (hout : retryLoop api prompt opts useCache maxRetries attempt fuel lastError st = out)
    (hf : 1 ≤ fuel) :
    1 ≤ countOutbound out.events := by
  obtain ⟨n, rfl⟩ : ∃ n, fuel = n + 1 := ⟨fuel - 1, by omega⟩
  simp only [retryLoop] at hout
  cases hapi : api attempt with
  | ok payload =>
    simp only [hapi] at hout
    by_cases hu : useCache = true
    · rw [if_pos hu] at hout
      subst hout
      simp
    · rw [if_neg hu] at hout
      subst hout
      simp
  | error e =>
    simp only [hapi] at hout
    by_cases hA : attempt = maxRetries
    · rw [if_pos hA] at hout
      subst hout
      simp
    · rw [if_neg hA] at hout
      subst hout
      simp

/-- Consecutive outbound calls of one loop run are separated by at least
`MIN_DELAY`, measured from the `lastApiCall` timestamp at loop entry. -/
theorem retryLoop_sep (api : Int → Except ApiError ApiOk) (prompt : String)
    (opts : ImageGenerationOptions) (useCache : Bool) (maxRetries : Int) :
    ∀ (fuel : Nat) (attempt : Int) (lastError : Option ApiError)
      (st : WrapperState) (out : RunOutput),
      retryLoop api prompt opts useCache maxRetries attempt fuel lastError st = out →
      separatedB st.lastApiCall (outboundTimes out.events) = true := by
  intro fuel
  induction fuel with
  | zero =>
    intro attempt lastError st out hout
    subst hout
    rfl
  | succ n ih =>
    intro attempt lastError st out hout
    simp only [retryLoop] at hout
    cases hapi : api attempt with
    | ok payload =>
      simp only [hapi] at hout
      by_cases hu : useCache = true
      · rw [if_pos hu] at hout
        subst hout
        simp [separatedB, rateWait_lower st.now st.lastApiCall]
      · rw [if_neg hu] at hout
        subst hout
        simp [separatedB, rateWait_lower st.now st.lastApiCall]
    | error e =>
      simp only [hapi] at hout
      by_cases hA : attempt = maxRetries
      · rw [if_pos hA] at hout
        subst hout
        simp [separatedB, rateWait_lower st.now st.lastApiCall]
      · rw [if_neg hA] at hout
        subst hout
        have hrest := ih (attempt + 1) (some e)
          ⟨st.now + rateWaitTime st.now st.lastApiCall + 2 ^ attempt.toNat * 1000,
            st.now + rateWaitTime st.now st.lastApiCall, st.cache⟩ _ rfl
        simp only [outboundTimes_append, outboundTimes_rateEvents,
          outboundTimes_cons_outbound, outboundTimes_cons_sleep, List.nil_append]
        simp only [separatedB, Bool.and_eq_true, decide_eq_true_eq]
        exact ⟨rateWait_lower st.now st.lastApiCall, hrest⟩

/-- A value freshly stored by `cacheSet` is returned by `cacheGet` under the
same key at any time not past its fresh TTL. -/
theorem cacheGet_set_self (cache : List (String × CacheEntry)) (key : String)
    (value : ImageGenerationResult) (tw t2 : Int) (h : t2 ≤ tw + STD_TTL_MS) :
    cacheGet (cacheSet cache key value tw) key t2 = some value := by
  unfold cacheGet cacheSet
  rw [List.find?_cons_of_pos _ (by simp)]
  simp only []
  rw [if_neg (by omega)]

/-- Run equation: valid inputs, caching enabled, cache hit. -/
theorem generateProductImage_hit (api : Int → Except ApiError ApiOk)
    (apiKey : Option String) (prompt : String) (options : ImageGenerationOptions)
    (st : WrapperState) (cached : ImageGenerationResult)
    (hp : prompt ≠ "") (hk : jsTruthy apiKey = true)
    (hu : options.useCache.getD true = true)
    (hget : cacheGet st.cache (createCacheKey prompt options) st.now = some cached) :
    generateProductImage api apiKey prompt options st
      = ⟨Except.ok { cached with fromCache := true, attempts := 0 }, st,
          [Event.cacheRead (createCacheKey prompt options) true]⟩ := by
  unfold generateProductImage
  rw [if_neg hp, if_neg (by simp [hk]), if_pos hu, hget]

/-- Run equation: valid inputs, caching enabled, cache miss. -/
theorem generateProductImage_miss (api : Int → Except ApiError ApiOk)
    (apiKey : Option String) (prompt : String) (options : ImageGenerationOptions)
    (st : WrapperState)
    (hp : prompt ≠ "") (hk : jsTruthy apiKey = true)
    (hu : options.useCache.getD true = true)
    (hget : cacheGet st.cache (createCacheKey prompt options) st.now = none) :
    generateProductImage api apiKey prompt options st
      = ⟨(retryLoop api prompt options true (options.maxRetries.getD 3) 1
            (options.maxRetries.getD 3).toNat none st).result,
         (retryLoop api prompt options true (options.maxRetries.getD 3) 1
            (options.maxRetries.getD 3).toNat none st).state,
         Event.cacheRead (createCacheKey prompt options) false ::
           (retryLoop api prompt options true (options.maxRetries.getD 3) 1
            (options.maxRetries.getD 3).toNat none st).events⟩ := by
  unfold generateProductImage
  rw [if_neg hp, if_neg (by simp [hk]), if_pos hu, hget]

/-- Run equation: valid inputs, caching disabled. -/
theorem generateProductImage_noCache_eq (api : Int → Except ApiError ApiOk)
    (apiKey : Option String) (prompt : String) (options : ImageGenerationOptions)
    (st : WrapperState)
    (hp : prompt ≠ "") (hk : jsTruthy apiKey = true)
    (hu : options.useCache.getD true = false) :
    generateProductImage api apiKey prompt options st
      = retryLoop api prompt options false (options.maxRetries.getD 3) 1
          (options.maxRetries.getD 3).toNat none st := by
  unfold generateProductImage
  rw [if_neg hp, if_neg (by simp [hk]), if_neg (by simp [hu])]

/-! Concrete inputs used by the witnesses. -/

/-- An outbound oracle whose every attempt fails with message `boom`. -/
def apiBoom : Int → Except ApiError ApiOk := fun _ => Except.error ⟨none, "boom"⟩

/-- The error family of `apiBoom`. -/
def errBoom : Int → ApiError := fun _ => ⟨none, "boom"⟩

/-- An outbound oracle whose every attempt succeeds. -/
def apiGood : Int → Except ApiError ApiOk := fun _ => Except.ok ⟨"https://img.example/a.png", none⟩

/-- A demo stored result used in cache scenarios. -/
def demoResult : ImageGenerationResult := ⟨"https://img.example/a.png", none, false, 1⟩

/-- C6: a call of `generateProductImage` with an empty prompt fails
immediately with the `Prompt is required` error annotated with status 400,
performs zero outbound calls and zero cache reads or writes, leaves the
whole state (in particular the rate-limit timestamp) unchanged, and
produces an empty trace. -/
theorem generateProductImage_emptyPrompt_invalidInput
    (api : Int → Except ApiError ApiOk) (apiKey : Option String)
    (options : ImageGenerationOptions) (st : WrapperState) :
    generateProductImage api apiKey "" options st
      = ⟨Except.error ⟨"Prompt is required", some 400⟩, st, []⟩
    ∧ countOutbound (generateProductImage api apiKey "" options st).events = 0
    ∧ cacheReads (generateProductImage api apiKey "" options st).events = []
    ∧ cacheWrites (generateProductImage api apiKey "" options st).events = []
    ∧ (generateProductImage api apiKey "" options st).state.lastApiCall
        = st.lastApiCall := by
  refine ⟨rfl, rfl, rfl, rfl, rfl⟩

/-- C8: `enforceRateLimit` waits exactly `max 0 (lastApiCall + MIN_DELAY - now)`
and then sets `lastApiCall` to the clock reached after the wait, which is at
least `lastApiCall + MIN_DELAY`; consequently, in the sequential execution
model, the outbound calls of any `generateProductImage` run are pairwise
separated by at least `MIN_DELAY`, measured from the `lastApiCall` at entry. -/
theorem enforceRateLimit_spec_and_separation :
    (∀ now lastApiCall : Int,
      rateWaitTime now lastApiCall = max 0 (lastApiCall + MIN_DELAY - now)
      ∧ enforceRateLimit now lastApiCall
          = (now + rateWaitTime now lastApiCall, now + rateWaitTime now lastApiCall)
      ∧ lastApiCall + MIN_DELAY ≤ (enforceRateLimit now lastApiCall).2)
    ∧ ∀ (api : Int → Except ApiError ApiOk) (apiKey : Option String) (prompt : String)
        (options : ImageGenerationOptions) (st : WrapperState),
        separatedB st.lastApiCall
          (outboundTimes (generateProductImage api apiKey prompt options st).events)
          = true := by
  constructor
  · intro now lastApiCall
    exact ⟨rateWaitTime_eq_max now lastApiCall, rfl, rateWait_lower now lastApiCall⟩
  · intro api apiKey prompt options st
    unfold generateProductImage
    by_cases hp : prompt = ""
    · rw [if_pos hp]
      rfl
    · rw [if_neg hp]
      by_cases hk : jsTruthy apiKey = false
      · rw [if_pos hk]
        rfl
      · rw [if_neg hk]
        by_cases hu : options.useCache.getD true = true
        · rw [if_pos hu]
          cases hget : cacheGet st.cache (createCacheKey prompt options) st.now with
          | some cached =>
            simp [hget, separatedB]
          | none =>
            simp only [hget]
            have hsep := retryLoop_sep api prompt options true (options.maxRetries.getD 3)
              (options.maxRetries.getD 3).toNat 1 none st _ rfl
            simpa using hsep
        · rw [if_neg hu]
          exact retryLoop_sep api prompt options false (options.maxRetries.getD 3)
            (options.maxRetries.getD 3).toNat 1 none st _ rfl

/-- C1: when the prompt is non-empty, the credential is configured, the
cache does not answer (disabled or miss), `maxRetries` is at least one and
every outbound attempt fails, the call performs exactly `maxRetries`
outbound attempts (hence never more than `maxRetries`), and throws the
exhausted-retries error whose message names `maxRetries` attempts and the
message derived from the last attempt's failure, annotated with status 500. -/
theorem generateProductImage_allFail_exhausted
    (api : Int → Except ApiError ApiOk) (e : Int → ApiError) (apiKey : Option String)
    (prompt : String) (options : ImageGenerationOptions) (st : WrapperState)
    (hfail : ∀ k, api k = Except.error (e k))
    (hp : prompt ≠ "") (hk : jsTruthy apiKey = true)
    (hmr : 1 ≤ options.maxRetries.getD 3)
    (hmiss : options.useCache.getD true = false ∨
      cacheGet st.cache (createCacheKey prompt options) st.now = none) :
    countOutbound (generateProductImage api apiKey prompt options st).events
        = (options.maxRetries.getD 3).toNat
    ∧ (countOutbound (generateProductImage api apiKey prompt options st).events : Int)
        ≤ options.maxRetries.getD 3
    ∧ (generateProductImage api apiKey prompt options st).result
        = Except.error ⟨"Failed to generate image after "
            ++ toString (options.maxRetries.getD 3) ++ " attempts: "
            ++ finalMsg (some (e (options.maxRetries.getD 3))), some 500⟩ := by
  have hknot : ¬ jsTruthy apiKey = false := by simp [hk]
  by_cases hu : options.useCache.getD true = true
  · have hget : cacheGet st.cache (createCacheKey prompt options) st.now = none := by
      rcases hmiss with h | h
      · rw [hu] at h
        exact absurd h (by simp)
      · exact h
    have hgen : generateProductImage api apiKey prompt options st
        = ⟨(retryLoop api prompt options true (options.maxRetries.getD 3) 1
              (options.maxRetries.getD 3).toNat none st).result,
           (retryLoop api prompt options true (options.maxRetries.getD 3) 1
              (options.maxRetries.getD 3).toNat none st).state,
           Event.cacheRead (createCacheKey prompt options) false ::
             (retryLoop api prompt options true (options.maxRetries.getD 3) 1
              (options.maxRetries.getD 3).toNat none st).events⟩ := by
      unfold generateProductImage
      rw [if_neg hp, if_neg hknot, if_pos hu, hget]
    obtain ⟨hres, hcache, hcount, hsleep, hw, hr⟩ :=
      retryLoop_allFail api e prompt options true (options.maxRetries.getD 3) hfail
        (options.maxRetries.getD 3).toNat 1 none st _ rfl (by omega) (by omega) (by omega)
    rw [hgen]
    refine ⟨by simpa using hcount, ?_, by simpa using hres⟩
    have hc : countOutbound (Event.cacheRead (createCacheKey prompt options) false ::
        (retryLoop api prompt options true (options.maxRetries.getD 3) 1
          (options.maxRetries.getD 3).toNat none st).events)
        = (options.maxRetries.getD 3).toNat := by simpa using hcount
    rw [hc]
    omega
  · have hgen : generateProductImage api apiKey prompt options st
        = retryLoop api prompt options false (options.maxRetries.getD 3) 1
            (options.maxRetries.getD 3).toNat none st := by
      unfold generateProductImage
      rw [if_neg hp, if_neg hknot, if_neg hu]
    obtain ⟨hres, hcache, hcount, hsleep, hw, hr⟩ :=
      retryLoop_allFail api e prompt options false (options.maxRetries.getD 3) hfail
        (options.maxRetries.getD 3).toNat 1 none st _ rfl (by omega) (by omega) (by omega)
    rw [hgen]
    refine ⟨hcount, ?_, hres⟩
    rw [hcount]
    omega

/-- Witness for C1: three failing attempts with the default options throw
the exhausted error after exactly three outbound calls. -/
theorem generateProductImage_allFail_exhausted_witness :
    countOutbound (generateProductImage apiBoom (some "sk") "cat" {} ⟨0, 0, []⟩).events = 3
    ∧ (countOutbound (generateProductImage apiBoom (some "sk") "cat" {} ⟨0, 0, []⟩).events : Int) ≤ 3
    ∧ (generateProductImage apiBoom (some "sk") "cat" {} ⟨0, 0, []⟩).result
        = Except.error ⟨"Failed to generate image after 3 attempts: boom", some 500⟩ := by
  have h := generateProductImage_allFail_exhausted apiBoom errBoom (some "sk") "cat" {}
    ⟨0, 0, []⟩ (fun k => rfl) (by decide) (by decide) (by decide) (Or.inr rfl)
  exact h

/-- The exponential backoff schedule starting at exponent `c` is
monotonically non-decreasing. -/
theorem pairwise_le_backoffSchedule (c n : ℕ) :
    List.Pairwise (· ≤ ·) ((List.range n).map (fun i => (2 : Int) ^ (c + i) * 1000)) := by
  refine List.Pairwise.map _ ?_ (List.pairwise_lt_range n)
  intro a b hab
  have h2 : (2 : Int) ^ (c + a) ≤ 2 ^ (c + b) := by
    apply pow_le_pow_right₀ (by norm_num) (by omega)
  exact mul_le_mul_of_nonneg_right h2 (by norm_num)


/-- The backoff schedule starting at exponent `a` extends by one step when
prefixed with the sleep of attempt `a`. -/
theorem backoffSchedule_step (a : Int) (ha : 1 ≤ a) (m : Nat) :
    (2 : Int) ^ a.toNat * 1000 ::
        (List.range m).map (fun i => (2 : Int) ^ ((a + 1).toNat + i) * 1000)
      = (List.range (m + 1)).map (fun i => (2 : Int) ^ (a.toNat + i) * 1000) := by
  have htn : (a + 1).toNat = a.toNat + 1 := by omega
  rw [htn, List.range_succ_eq_map, List.map_cons, List.map_map]
  congr 1
  apply List.map_congr_left
  simp only [Function.comp_apply, Nat.succ_eq_add_one, List.mem_range]
  intro i hi
  have hx : a.toNat + 1 + i = a.toNat + (i + 1) := by omega
  rw [hx]

/-- In any loop run starting at attempt `a ≥ 1`, the traced backoff sleeps
form an initial segment of the exponential schedule `2^a, 2^(a+1), ...`
(each times 1000 ms). -/
theorem retryLoop_sleeps_schedule (api : Int → Except ApiError ApiOk) (prompt : String)
    (opts : ImageGenerationOptions) (useCache : Bool) (maxRetries : Int) :
    ∀ (fuel : Nat) (attempt : Int) (lastError : Option ApiError)
      (st : WrapperState) (out : RunOutput),
      retryLoop api prompt opts useCache maxRetries attempt fuel lastError st = out →
      1 ≤ attempt →
      ∃ n, backoffSleeps out.events
        = (List.range n).map (fun i => (2 : Int) ^ (attempt.toNat + i) * 1000) := by
  intro fuel
  induction fuel with
  | zero =>
    intro attempt lastError st out hout ha
    subst hout
    exact ⟨0, rfl⟩
  | succ n ih =>
    intro attempt lastError st out hout ha
    simp only [retryLoop] at hout
    cases hapi : api attempt with
    | ok payload =>
      simp only [hapi] at hout
      by_cases hu : useCache = true
      · rw [if_pos hu] at hout
        subst hout
        exact ⟨0, by simp⟩
      · rw [if_neg hu] at hout
        subst hout
        exact ⟨0, by simp⟩
    | error e =>
      simp only [hapi] at hout
      by_cases hA : attempt = maxRetries
      · rw [if_pos hA] at hout
        subst hout
        exact ⟨0, by simp⟩
      · rw [if_neg hA] at hout
        subst hout
        obtain ⟨m, hm⟩ := ih (attempt + 1) (some e)
          ⟨st.now + rateWaitTime st.now st.lastApiCall + 2 ^ attempt.toNat * 1000,
            st.now + rateWaitTime st.now st.lastApiCall, st.cache⟩ _ rfl (by omega)
        refine ⟨m + 1, ?_⟩
        simp only [backoffSleeps_append, backoffSleeps_rateEvents,
          backoffSleeps_cons_outbound, backoffSleeps_cons_sleep, List.nil_append, hm]
        exact backoffSchedule_step attempt ha m

/-- C2: in every call, the traced backoff sleeps form an initial segment of
the exponential schedule — the sleep following failing attempt `k` (and
hence preceding attempt `k + 1`) lasts exactly `2^k * 1000` ms — so the
delays within one call are monotonically non-decreasing; and on a run
where every attempt fails, the sleeps are exactly the schedule up to
`maxRetries - 1`, one fewer than the outbound attempts, so no backoff
sleep follows the final attempt. -/
theorem generateProductImage_backoff_exact :
    (∀ (api : Int → Except ApiError ApiOk) (apiKey : Option String) (prompt : String)
       (options : ImageGenerationOptions) (st : WrapperState),
      ∃ n, backoffSleeps (generateProductImage api apiKey prompt options st).events
          = (List.range n).map (fun i => (2 : Int) ^ (1 + i) * 1000)
        ∧ List.Pairwise (· ≤ ·)
            (backoffSleeps (generateProductImage api apiKey prompt options st).events))
    ∧ (∀ (api : Int → Except ApiError ApiOk) (e : Int → ApiError) (apiKey : Option String)
        (prompt : String) (options : ImageGenerationOptions) (st : WrapperState),
      (∀ k, api k = Except.error (e k)) → prompt ≠ "" → jsTruthy apiKey = true →
      1 ≤ options.maxRetries.getD 3 →
      (options.useCache.getD true = false ∨
        cacheGet st.cache (createCacheKey prompt options) st.now = none) →
      backoffSleeps (generateProductImage api apiKey prompt options st).events
        = (List.range ((options.maxRetries.getD 3).toNat - 1)).map
            (fun i => (2 : Int) ^ (1 + i) * 1000)
      ∧ (backoffSleeps (generateProductImage api apiKey prompt options st).events).length
          + 1 = countOutbound (generateProductImage api apiKey prompt options st).events) := by
  constructor
  · intro api apiKey prompt options st
    obtain ⟨nn, hnn⟩ : ∃ n,
        backoffSleeps (generateProductImage api apiKey prompt options st).events
          = (List.range n).map (fun i => (2 : Int) ^ (1 + i) * 1000) := by
      by_cases hp : prompt = ""
      · refine ⟨0, ?_⟩
        unfold generateProductImage
        rw [if_pos hp]
        rfl
      · by_cases hk : jsTruthy apiKey = false
        · refine ⟨0, ?_⟩
          unfold generateProductImage
          rw [if_neg hp, if_pos hk]
          rfl
        · have hk2 : jsTruthy apiKey = true := by
            revert hk
            cases jsTruthy apiKey <;> simp
          by_cases hu : options.useCache.getD true = true
          · cases hget : cacheGet st.cache (createCacheKey prompt options) st.now with
            | some cached =>
              refine ⟨0, ?_⟩
              rw [generateProductImage_hit api apiKey prompt options st cached hp hk2 hu hget]
              rfl
            | none =>
              rw [generateProductImage_miss api apiKey prompt options st hp hk2 hu hget]
              obtain ⟨n, hn⟩ := retryLoop_sleeps_schedule api prompt options true
                (options.maxRetries.getD 3) (options.maxRetries.getD 3).toNat 1 none st
                _ rfl (by omega)
              exact ⟨n, by simpa using hn⟩
          · have hu2 : options.useCache.getD true = false := by
              revert hu
              cases options.useCache.getD true <;> simp
            rw [generateProductImage_noCache_eq api apiKey prompt options st hp hk2 hu2]
            obtain ⟨n, hn⟩ := retryLoop_sleeps_schedule api prompt options false
              (options.maxRetries.getD 3) (options.maxRetries.getD 3).toNat 1 none st
              _ rfl (by omega)
            exact ⟨n, hn⟩
    exact ⟨nn, hnn, by rw [hnn]; exact pairwise_le_backoffSchedule 1 nn⟩
  · intro api e apiKey prompt options st hfail hp hk hmr hmiss
    have hknot : ¬ jsTruthy apiKey = false := by simp [hk]
    by_cases hu : options.useCache.getD true = true
    · have hget : cacheGet st.cache (createCacheKey prompt options) st.now = none := by
        rcases hmiss with h | h
        · rw [hu] at h
          exact absurd h (by simp)
        · exact h
      rw [generateProductImage_miss api apiKey prompt options st hp hk hu hget]
      obtain ⟨hres, hcache, hcount, hsleep, hw, hr⟩ :=
        retryLoop_allFail api e prompt options true (options.maxRetries.getD 3) hfail
          (options.maxRetries.getD 3).toNat 1 none st _ rfl (by omega) (by omega) (by omega)
      have hs : backoffSleeps (Event.cacheRead (createCacheKey prompt options) false ::
          (retryLoop api prompt options true (options.maxRetries.getD 3) 1
            (options.maxRetries.getD 3).toNat none st).events)
          = (List.range ((options.maxRetries.getD 3).toNat - 1)).map
              (fun i => (2 : Int) ^ (1 + i) * 1000) := by simpa using hsleep
      have hc : countOutbound (Event.cacheRead (createCacheKey prompt options) false ::
          (retryLoop api prompt options true (options.maxRetries.getD 3) 1
            (options.maxRetries.getD 3).toNat none st).events)
          = (options.maxRetries.getD 3).toNat := by simpa using hcount
      refine ⟨hs, ?_⟩
      rw [hs, hc]
      simp only [List.length_map, List.length_range]
      omega
    · have hu2 : options.useCache.getD true = false := by
        revert hu
        cases options.useCache.getD true <;> simp
      rw [generateProductImage_noCache_eq api apiKey prompt options st hp hk hu2]
      obtain ⟨hres, hcache, hcount, hsleep, hw, hr⟩ :=
        retryLoop_allFail api e prompt options false (options.maxRetries.getD 3) hfail
          (options.maxRetries.getD 3).toNat 1 none st _ rfl (by omega) (by omega) (by omega)
      have hs : backoffSleeps (retryLoop api prompt options false (options.maxRetries.getD 3)
          1 (options.maxRetries.getD 3).toNat none st).events
          = (List.range ((options.maxRetries.getD 3).toNat - 1)).map
              (fun i => (2 : Int) ^ (1 + i) * 1000) := by simpa using hsleep
      refine ⟨hs, ?_⟩
      rw [hs, hcount]
      simp only [List.length_map, List.length_range]
      omega

/-- Witness for C2: with the default three retries and every attempt
failing, the sleeps are exactly 2000 ms then 4000 ms, monotone, and one
fewer than the three outbound attempts. -/
theorem generateProductImage_backoff_exact_witness :
    backoffSleeps (generateProductImage apiBoom (some "sk") "sun" {} ⟨0, 0, []⟩).events
      = [2000, 4000]
    ∧ List.Pairwise (· ≤ ·)
        (backoffSleeps (generateProductImage apiBoom (some "sk") "sun" {} ⟨0, 0, []⟩).events)
    ∧ (backoffSleeps (generateProductImage apiBoom (some "sk") "sun" {}
        ⟨0, 0, []⟩).events).length + 1
        = countOutbound (generateProductImage apiBoom (some "sk") "sun" {} ⟨0, 0, []⟩).events := by
  have h := generateProductImage_backoff_exact.2 apiBoom errBoom (some "sk") "sun" {}
    ⟨0, 0, []⟩ (fun k => rfl) (by decide) (by decide) (by decide) (Or.inr rfl)
  have hp := (generateProductImage_backoff_exact.1 apiBoom (some "sk") "sun" {}
    ⟨0, 0, []⟩).choose_spec.2
  refine ⟨?_, hp, h.2⟩
  rw [h.1]
  decide

/-- C10: with a non-empty prompt, configured credential, no cache answer
and a configured `maxRetries ≤ 0`, the retry loop body never runs: the
call performs zero outbound calls, changes nothing, and throws the
exhausted error whose message names `maxRetries` attempts and the fallback
`Unknown error` cause, annotated with status 500. -/
theorem generateProductImage_nonpositive_maxRetries
    (api : Int → Except ApiError ApiOk) (apiKey : Option String) (prompt : String)
    (options : ImageGenerationOptions) (st : WrapperState) (m : Int)
    (hp : prompt ≠ "") (hk : jsTruthy apiKey = true)
    (hm : options.maxRetries = some m) (hm0 : m ≤ 0)
    (hmiss : options.useCache.getD true = false ∨
      cacheGet st.cache (createCacheKey prompt options) st.now = none) :
    countOutbound (generateProductImage api apiKey prompt options st).events = 0
    ∧ (generateProductImage api apiKey prompt options st).result
        = Except.error ⟨"Failed to generate image after " ++ toString m
            ++ " attempts: Unknown error", some 500⟩
    ∧ (generateProductImage api apiKey prompt options st).state = st := by
  have hknot : ¬ jsTruthy apiKey = false := by simp [hk]
  have hgd : options.maxRetries.getD 3 = m := by rw [hm]; rfl
  have hf : (options.maxRetries.getD 3).toNat = 0 := by rw [hgd]; omega
  by_cases hu : options.useCache.getD true = true
  · have hget : cacheGet st.cache (createCacheKey prompt options) st.now = none := by
      rcases hmiss with h | h
      · rw [hu] at h
        exact absurd h (by simp)
      · exact h
    have hgen : generateProductImage api apiKey prompt options st
        = ⟨Except.error (mkExhausted m none), st,
            [Event.cacheRead (createCacheKey prompt options) false]⟩ := by
      unfold generateProductImage
      rw [if_neg hp, if_neg hknot, if_pos hu, hget, hf, hgd]
      rfl
    rw [hgen]
    refine ⟨rfl, ?_, rfl⟩
    show Except.error (mkExhausted m none) = _
    simp [mkExhausted, finalMsg, String.append_assoc]
  · have hgen : generateProductImage api apiKey prompt options st
        = ⟨Except.error (mkExhausted m none), st, []⟩ := by
      unfold generateProductImage
      rw [if_neg hp, if_neg hknot, if_neg hu, hf, hgd]
      rfl
    rw [hgen]
    refine ⟨rfl, ?_, rfl⟩
    show Except.error (mkExhausted m none) = _
    simp [mkExhausted, finalMsg, String.append_assoc]

/-- Witness for C10: `maxRetries = 0` yields zero outbound calls and the
`0 attempts: Unknown error` message. -/
theorem generateProductImage_nonpositive_maxRetries_witness :
    countOutbound (generateProductImage apiBoom (some "sk") "dog"
        { maxRetries := some 0 } ⟨0, 0, []⟩).events = 0
    ∧ (generateProductImage apiBoom (some "sk") "dog"
        { maxRetries := some 0 } ⟨0, 0, []⟩).result
        = Except.error ⟨"Failed to generate image after 0 attempts: Unknown error", some 500⟩
    ∧ (generateProductImage apiBoom (some "sk") "dog"
        { maxRetries := some 0 } ⟨0, 0, []⟩).state = ⟨0, 0, []⟩ := by
  have h := generateProductImage_nonpositive_maxRetries apiBoom (some "sk") "dog"
    { maxRetries := some 0 } ⟨0, 0, []⟩ 0 (by decide) (by decide) rfl (by decide)
    (Or.inr rfl)
  exact h


/-- C3: with valid inputs, caching enabled and a non-expired entry under the
derived key, the call returns that entry with `fromCache = true` and
`attempts = 0`, makes no outbound call and leaves the state untouched; in
particular, when a first call returns an outbound (non-cached) success, a
second identical call at any time within the fresh TTL window is answered
from the cache with no outbound call. -/
theorem generateProductImage_cacheHit_immediate :
    (∀ (api : Int → Except ApiError ApiOk) (apiKey : Option String) (prompt : String)
       (options : ImageGenerationOptions) (st : WrapperState)
       (cached : ImageGenerationResult),
      prompt ≠ "" → jsTruthy apiKey = true → options.useCache.getD true = true →
      cacheGet st.cache (createCacheKey prompt options) st.now = some cached →
      generateProductImage api apiKey prompt options st
        = ⟨Except.ok { cached with fromCache := true, attempts := 0 }, st,
            [Event.cacheRead (createCacheKey prompt options) true]⟩)
    ∧ (∀ (api api2 : Int → Except ApiError ApiOk) (apiKey : Option String)
        (prompt : String) (options : ImageGenerationOptions) (st : WrapperState)
        (r : ImageGenerationResult) (t2 : Int),
      prompt ≠ "" → jsTruthy apiKey = true → options.useCache.getD true = true →
      (generateProductImage api apiKey prompt options st).result = Except.ok r →
      r.fromCache = false →
      t2 ≤ (generateProductImage api apiKey prompt options st).state.now + STD_TTL_MS →
      (generateProductImage api2 apiKey prompt options
          ⟨t2, (generateProductImage api apiKey prompt options st).state.lastApiCall,
            (generateProductImage api apiKey prompt options st).state.cache⟩).result
          = Except.ok { r with fromCache := true, attempts := 0 }
      ∧ countOutbound (generateProductImage api2 apiKey prompt options
          ⟨t2, (generateProductImage api apiKey prompt options st).state.lastApiCall,
            (generateProductImage api apiKey prompt options st).state.cache⟩).events
          = 0) := by
  constructor
  · intro api apiKey prompt options st cached hp hk hu hget
    exact generateProductImage_hit api apiKey prompt options st cached hp hk hu hget
  · intro api api2 apiKey prompt options st r t2 hp hk hu hres hfc ht2
    cases hget : cacheGet st.cache (createCacheKey prompt options) st.now with
    | some cached =>
      rw [generateProductImage_hit api apiKey prompt options st cached hp hk hu hget]
        at hres
      obtain rfl : ({ cached with fromCache := true, attempts := 0 } :
          ImageGenerationResult) = r := by
        simpa using hres
      simp at hfc
    | none =>
      have hmiss := generateProductImage_miss api apiKey prompt options st hp hk hu hget
      rw [hmiss] at hres ht2 ⊢
      obtain ⟨hfc2, hcc, hncc, hrd⟩ := retryLoop_ok api prompt options true
        (options.maxRetries.getD 3) (options.maxRetries.getD 3).toNat 1 none st _ r rfl hres
      obtain ⟨hcache, hwr⟩ := hcc rfl
      have hget2 : cacheGet (retryLoop api prompt options true (options.maxRetries.getD 3) 1
          (options.maxRetries.getD 3).toNat none st).state.cache
          (createCacheKey prompt options) t2 = some r := by
        rw [hcache]
        exact cacheGet_set_self _ _ _ _ _ ht2
      rw [generateProductImage_hit api2 apiKey prompt options _ r hp hk hu hget2]
      exact ⟨rfl, rfl⟩

/-- Witness for C3: a pre-populated non-expired entry is served with
`fromCache = true` and no outbound call, and a successful first call makes
an identical second call within the TTL window a cache hit. -/
theorem generateProductImage_cacheHit_immediate_witness :
    generateProductImage apiBoom (some "sk") "cat" {}
        ⟨1000, 0, cacheSet [] (createCacheKey "cat" {}) demoResult 500⟩
      = ⟨Except.ok { demoResult with fromCache := true, attempts := 0 },
          ⟨1000, 0, cacheSet [] (createCacheKey "cat" {}) demoResult 500⟩,
          [Event.cacheRead (createCacheKey "cat" {}) true]⟩
    ∧ (generateProductImage apiBoom (some "sk") "pig" {}
        ⟨2000, (generateProductImage apiGood (some "sk") "pig" {} ⟨0, 0, []⟩).state.lastApiCall,
          (generateProductImage apiGood (some "sk") "pig" {} ⟨0, 0, []⟩).state.cache⟩).result
        = Except.ok { (⟨"https://img.example/a.png", none, false, 1⟩ :
            ImageGenerationResult) with fromCache := true, attempts := 0 }
    ∧ countOutbound (generateProductImage apiBoom (some "sk") "pig" {}
        ⟨2000, (generateProductImage apiGood (some "sk") "pig" {} ⟨0, 0, []⟩).state.lastApiCall,
          (generateProductImage apiGood (some "sk") "pig" {} ⟨0, 0, []⟩).state.cache⟩).events
        = 0 := by
  refine ⟨?_, ?_⟩
  · exact generateProductImage_cacheHit_immediate.1 apiBoom (some "sk") "cat" {}
      ⟨1000, 0, cacheSet [] (createCacheKey "cat" {}) demoResult 500⟩ demoResult
      (by decide) (by decide) rfl (by decide)
  · exact generateProductImage_cacheHit_immediate.2 apiGood apiBoom (some "sk") "pig" {}
      ⟨0, 0, []⟩ ⟨"https://img.example/a.png", none, false, 1⟩ 2000
      (by decide) (by decide) rfl (by decide) rfl (by decide)

/-- C4: an entry under the derived key whose TTL has elapsed is never
returned: the lookup is a miss, the call takes the outbound path (at least
one outbound call when `maxRetries` is at least one), and any returned
value was built outbound, not from the cache. -/
theorem generateProductImage_expired_entry_miss
    (api : Int → Except ApiError ApiOk) (apiKey : Option String) (prompt : String)
    (options : ImageGenerationOptions) (st : WrapperState) (entry : String × CacheEntry)
    (hp : prompt ≠ "") (hk : jsTruthy apiKey = true)
    (hu : options.useCache.getD true = true)
    (hmr : 1 ≤ options.maxRetries.getD 3)
    (hfind : st.cache.find? (fun kv => kv.1 == createCacheKey prompt options)
        = some entry)
    (hexp : entry.2.expiresAt < st.now) :
    cacheGet st.cache (createCacheKey prompt options) st.now = none
    ∧ 1 ≤ countOutbound (generateProductImage api apiKey prompt options st).events
    ∧ (∀ r, (generateProductImage api apiKey prompt options st).result = Except.ok r →
        r.fromCache = false) := by
  have hget : cacheGet st.cache (createCacheKey prompt options) st.now = none := by
    unfold cacheGet
    rw [hfind]
    simp [hexp]
  have hmisseq := generateProductImage_miss api apiKey prompt options st hp hk hu hget
  refine ⟨hget, ?_, ?_⟩
  · rw [hmisseq]
    have hpos := retryLoop_pos api prompt options true (options.maxRetries.getD 3)
      (options.maxRetries.getD 3).toNat 1 none st _ rfl (by omega)
    simpa using hpos
  · intro r hr
    rw [hmisseq] at hr
    exact (retryLoop_ok api prompt options true (options.maxRetries.getD 3)
      (options.maxRetries.getD 3).toNat 1 none st _ r rfl hr).1

/-- Witness for C4: an entry stored at time 0 is expired at time 4000000,
the lookup misses, the run goes outbound, and the returned value is not
from the cache. -/
theorem generateProductImage_expired_entry_miss_witness :
    cacheGet (cacheSet [] (createCacheKey "owl" {}) demoResult 0)
        (createCacheKey "owl" {}) 4000000 = none
    ∧ 1 ≤ countOutbound (generateProductImage apiGood (some "sk") "owl" {}
        ⟨4000000, 0, cacheSet [] (createCacheKey "owl" {}) demoResult 0⟩).events
    ∧ (⟨"https://img.example/a.png", none, false, 1⟩ :
        ImageGenerationResult).fromCache = false := by
  have h := generateProductImage_expired_entry_miss apiGood (some "sk") "owl" {}
    ⟨4000000, 0, cacheSet [] (createCacheKey "owl" {}) demoResult 0⟩
    (createCacheKey "owl" {}, ⟨demoResult, STD_TTL_MS⟩)
    (by decide) (by decide) rfl (by decide) (by decide) (by decide)
  exact ⟨h.1, h.2.1, h.2.2 ⟨"https://img.example/a.png", none, false, 1⟩ (by decide)⟩

/-- Frame of a loop run with caching disabled: the cache is untouched and
no cache access is traced, whatever the outcome. -/
theorem retryLoop_frame_noCache (api : Int → Except ApiError ApiOk) (prompt : String)
    (opts : ImageGenerationOptions) (maxRetries : Int) (fuel : Nat) (attempt : Int)
    (lastError : Option ApiError) (st : WrapperState) (out : RunOutput)
    (hout : retryLoop api prompt opts false maxRetries attempt fuel lastError st = out) :
    out.state.cache = st.cache ∧ cacheWrites out.events = []
    ∧ cacheReads out.events = [] := by
  cases hres : out.result with
  | ok r =>
    obtain ⟨_, _, hnc, hrd⟩ := retryLoop_ok api prompt opts false maxRetries fuel
      attempt lastError st out r hout hres
    obtain ⟨h1, h2⟩ := hnc rfl
    exact ⟨h1, h2, hrd⟩
  | error err =>
    exact retryLoop_err api prompt opts false maxRetries fuel attempt lastError st
      out err hout hres

/-- C5: the cache is written only by a successful outbound attempt with
caching enabled — in which case the result is stored under the derived key
with a fresh TTL (the `cacheSet` at the final clock) and exactly one write
is traced; every run that throws (in particular one ending in the
exhausted-retries error) leaves the cache contents unchanged and traces no
write. -/
theorem generateProductImage_cacheWrite_only_on_success
    (api : Int → Except ApiError ApiOk) (apiKey : Option String) (prompt : String)
    (options : ImageGenerationOptions) (st : WrapperState) :
    (∀ err, (generateProductImage api apiKey prompt options st).result
          = Except.error err →
        (generateProductImage api apiKey prompt options st).state.cache = st.cache
        ∧ cacheWrites (generateProductImage api apiKey prompt options st).events = [])
    ∧ (∀ r, (generateProductImage api apiKey prompt options st).result = Except.ok r →
        (r.fromCache = true
          ∧ (generateProductImage api apiKey prompt options st).state.cache = st.cache
          ∧ cacheWrites (generateProductImage api apiKey prompt options st).events = [])
        ∨ (r.fromCache = false ∧ options.useCache.getD true = true
          ∧ (generateProductImage api apiKey prompt options st).state.cache
              = cacheSet st.cache (createCacheKey prompt options) r
                  (generateProductImage api apiKey prompt options st).state.now
          ∧ cacheWrites (generateProductImage api apiKey prompt options st).events
              = [createCacheKey prompt options])
        ∨ (r.fromCache = false ∧ options.useCache.getD true = false
          ∧ (generateProductImage api apiKey prompt options st).state.cache = st.cache
          ∧ cacheWrites (generateProductImage api apiKey prompt options st).events
              = [])) := by
  by_cases hp : prompt = ""
  · have hgen : generateProductImage api apiKey prompt options st
        = ⟨Except.error ⟨"Prompt is required", some 400⟩, st, []⟩ := by
      unfold generateProductImage
      rw [if_pos hp]
    rw [hgen]
    exact ⟨fun err _ => ⟨rfl, rfl⟩, fun r hr => absurd hr (by simp)⟩
  · by_cases hk : jsTruthy apiKey = false
    · have hgen : generateProductImage api apiKey prompt options st
          = ⟨Except.error ⟨"OpenAI API key not configured", some 500⟩, st, []⟩ := by
        unfold generateProductImage
        rw [if_neg hp, if_pos hk]
      rw [hgen]
      exact ⟨fun err _ => ⟨rfl, rfl⟩, fun r hr => absurd hr (by simp)⟩
    · have hk' : jsTruthy apiKey = true := by
        revert hk
        cases jsTruthy apiKey <;> simp
      by_cases hu : options.useCache.getD true = true
      · cases hget : cacheGet st.cache (createCacheKey prompt options) st.now with
        | some cached =>
          rw [generateProductImage_hit api apiKey prompt options st cached hp hk' hu hget]
          refine ⟨fun err herr => absurd herr (by simp), fun r hr => ?_⟩
          obtain rfl : ({ cached with fromCache := true, attempts := 0 } :
              ImageGenerationResult) = r := by
            simpa using hr
          exact Or.inl ⟨rfl, rfl, rfl⟩
        | none =>
          rw [generateProductImage_miss api apiKey prompt options st hp hk' hu hget]
          constructor
          · intro err herr
            obtain ⟨h1, h2, _⟩ := retryLoop_err api prompt options true
              (options.maxRetries.getD 3) (options.maxRetries.getD 3).toNat 1 none st
              _ err rfl herr
            exact ⟨h1, by simpa using h2⟩
          · intro r hr
            obtain ⟨hfc, hcc, _, _⟩ := retryLoop_ok api prompt options true
              (options.maxRetries.getD 3) (options.maxRetries.getD 3).toNat 1 none st
              _ r rfl hr
            obtain ⟨hcache, hwr⟩ := hcc rfl
            exact Or.inr (Or.inl ⟨hfc, hu, hcache, by simpa using hwr⟩)
      · have hu' : options.useCache.getD true = false := by
          revert hu
          cases options.useCache.getD true <;> simp
        rw [generateProductImage_noCache_eq api apiKey prompt options st hp hk' hu']
        constructor
        · intro err herr
          obtain ⟨h1, h2, _⟩ := retryLoop_err api prompt options false
            (options.maxRetries.getD 3) (options.maxRetries.getD 3).toNat 1 none st
            _ err rfl herr
          exact ⟨h1, h2⟩
        · intro r hr
          obtain ⟨hfc, _, hnc, _⟩ := retryLoop_ok api prompt options false
            (options.maxRetries.getD 3) (options.maxRetries.getD 3).toNat 1 none st
            _ r rfl hr
          obtain ⟨h1, h2⟩ := hnc rfl
          exact Or.inr (Or.inr ⟨hfc, hu', h1, h2⟩)

/-- Witness for C5: a failed run leaves a pre-existing cache entry exactly
in place with no write traced, and a successful outbound run with caching
enabled lands in the middle disjunct (fresh store under the derived key,
one traced write). -/
theorem generateProductImage_cacheWrite_only_on_success_witness :
    ((generateProductImage apiBoom (some "sk") "fox" {}
        ⟨0, 0, [("other", ⟨demoResult, 99⟩)]⟩).state.cache
        = [("other", ⟨demoResult, 99⟩)]
      ∧ cacheWrites (generateProductImage apiBoom (some "sk") "fox" {}
        ⟨0, 0, [("other", ⟨demoResult, 99⟩)]⟩).events = [])
    ∧ (((⟨"https://img.example/a.png", none, false, 1⟩ :
          ImageGenerationResult).fromCache = true
        ∧ (generateProductImage apiGood (some "sk") "fox" {} ⟨0, 0, []⟩).state.cache = []
        ∧ cacheWrites (generateProductImage apiGood (some "sk") "fox" {}
            ⟨0, 0, []⟩).events = [])
      ∨ ((⟨"https://img.example/a.png", none, false, 1⟩ :
          ImageGenerationResult).fromCache = false
        ∧ (({} : ImageGenerationOptions).useCache.getD true = true)
        ∧ (generateProductImage apiGood (some "sk") "fox" {} ⟨0, 0, []⟩).state.cache
            = cacheSet [] (createCacheKey "fox" {})
                ⟨"https://img.example/a.png", none, false, 1⟩
                (generateProductImage apiGood (some "sk") "fox" {} ⟨0, 0, []⟩).state.now
        ∧ cacheWrites (generateProductImage apiGood (some "sk") "fox" {}
            ⟨0, 0, []⟩).events = [createCacheKey "fox" {}])
      ∨ ((⟨"https://img.example/a.png", none, false, 1⟩ :
          ImageGenerationResult).fromCache = false
        ∧ (({} : ImageGenerationOptions).useCache.getD true = false)
        ∧ (generateProductImage apiGood (some "sk") "fox" {} ⟨0, 0, []⟩).state.cache = []
        ∧ cacheWrites (generateProductImage apiGood (some "sk") "fox" {}
            ⟨0, 0, []⟩).events = [])) := by
  constructor
  · exact (generateProductImage_cacheWrite_only_on_success apiBoom (some "sk") "fox" {}
      ⟨0, 0, [("other", ⟨demoResult, 99⟩)]⟩).1
      ⟨"Failed to generate image after 3 attempts: boom", some 500⟩ (by decide)
  · exact (generateProductImage_cacheWrite_only_on_success apiGood (some "sk") "fox" {}
      ⟨0, 0, []⟩).2 ⟨"https://img.example/a.png", none, false, 1⟩ (by decide)

/-- C7: with valid inputs and `useCache = false`, a call never reads or
writes the cache, leaves the cache contents unchanged and takes the
outbound path; repeating the identical call from the resulting state does
the same, with the cache still equal to the original contents. -/
theorem generateProductImage_noCache_frame
    (api api2 : Int → Except ApiError ApiOk) (apiKey : Option String) (prompt : String)
    (options : ImageGenerationOptions) (st : WrapperState)
    (hp : prompt ≠ "") (hk : jsTruthy apiKey = true)
    (hu : options.useCache.getD true = false)
    (hmr : 1 ≤ options.maxRetries.getD 3) :
    cacheReads (generateProductImage api apiKey prompt options st).events = []
    ∧ cacheWrites (generateProductImage api apiKey prompt options st).events = []
    ∧ (generateProductImage api apiKey prompt options st).state.cache = st.cache
    ∧ 1 ≤ countOutbound (generateProductImage api apiKey prompt options st).events
    ∧ cacheReads (generateProductImage api2 apiKey prompt options
        (generateProductImage api apiKey prompt options st).state).events = []
    ∧ cacheWrites (generateProductImage api2 apiKey prompt options
        (generateProductImage api apiKey prompt options st).state).events = []
    ∧ (generateProductImage api2 apiKey prompt options
        (generateProductImage api apiKey prompt options st).state).state.cache = st.cache
    ∧ 1 ≤ countOutbound (generateProductImage api2 apiKey prompt options
        (generateProductImage api apiKey prompt options st).state).events := by
  have h1eq := generateProductImage_noCache_eq api apiKey prompt options st hp hk hu
  obtain ⟨h1c, h1w, h1r⟩ := retryLoop_frame_noCache api prompt options
    (options.maxRetries.getD 3) (options.maxRetries.getD 3).toNat 1 none st _ rfl
  have h1p := retryLoop_pos api prompt options false (options.maxRetries.getD 3)
    (options.maxRetries.getD 3).toNat 1 none st _ rfl (by omega)
  have h2eq := generateProductImage_noCache_eq api2 apiKey prompt options
    (generateProductImage api apiKey prompt options st).state hp hk hu
  obtain ⟨h2c, h2w, h2r⟩ := retryLoop_frame_noCache api2 prompt options
    (options.maxRetries.getD 3) (options.maxRetries.getD 3).toNat 1 none
    (generateProductImage api apiKey prompt options st).state _ rfl
  have h2p := retryLoop_pos api2 prompt options false (options.maxRetries.getD 3)
    (options.maxRetries.getD 3).toNat 1 none
    (generateProductImage api apiKey prompt options st).state _ rfl (by omega)
  rw [h1eq] at *
  rw [h2eq]
  exact ⟨h1r, h1w, h1c, h1p, h2r, h2w, by rw [h2c, h1c], h2p⟩

/-- Witness for C7: two consecutive `useCache = false` runs on a state with
a pre-existing entry never touch the cache and both go outbound. -/
theorem generateProductImage_noCache_frame_witness :
    cacheReads (generateProductImage apiBoom (some "sk") "elk"
        { useCache := some false } ⟨0, 0, [("k", ⟨demoResult, 99⟩)]⟩).events = []
    ∧ cacheWrites (generateProductImage apiBoom (some "sk") "elk"
        { useCache := some false } ⟨0, 0, [("k", ⟨demoResult, 99⟩)]⟩).events = []
    ∧ (generateProductImage apiBoom (some "sk") "elk"
        { useCache := some false } ⟨0, 0, [("k", ⟨demoResult, 99⟩)]⟩).state.cache
        = [("k", ⟨demoResult, 99⟩)]
    ∧ 1 ≤ countOutbound (generateProductImage apiBoom (some "sk") "elk"
        { useCache := some false } ⟨0, 0, [("k", ⟨demoResult, 99⟩)]⟩).events
    ∧ cacheReads (generateProductImage apiGood (some "sk") "elk" { useCache := some false }
        (generateProductImage apiBoom (some "sk") "elk" { useCache := some false }
          ⟨0, 0, [("k", ⟨demoResult, 99⟩)]⟩).state).events = []
    ∧ cacheWrites (generateProductImage apiGood (some "sk") "elk" { useCache := some false }
        (generateProductImage apiBoom (some "sk") "elk" { useCache := some false }
          ⟨0, 0, [("k", ⟨demoResult, 99⟩)]⟩).state).events = []
    ∧ (generateProductImage apiGood (some "sk") "elk" { useCache := some false }
        (generateProductImage apiBoom (some "sk") "elk" { useCache := some false }
          ⟨0, 0, [("k", ⟨demoResult, 99⟩)]⟩).state).state.cache
        = [("k", ⟨demoResult, 99⟩)]
    ∧ 1 ≤ countOutbound (generateProductImage apiGood (some "sk") "elk"
        { useCache := some false }
        (generateProductImage apiBoom (some "sk") "elk" { useCache := some false }
          ⟨0, 0, [("k", ⟨demoResult, 99⟩)]⟩).state).events := by
  exact generateProductImage_noCache_frame apiBoom apiGood (some "sk") "elk"
    { useCache := some false } ⟨0, 0, [("k", ⟨demoResult, 99⟩)]⟩
    (by decide) (by decide) rfl (by decide)

/-- C9: `createCacheKey` lowercases the prompt, replaces every character
outside `[a-z0-9]` by an underscore and keeps only the first 50 characters,
so distinct prompts (same options) can collide — both by sanitization
("Red Car!" versus "red car?") and by truncation (prompts agreeing on their
first 50 characters); consequently, with caching enabled, a call can be
answered, marked `fromCache = true`, by the value cached for a different
prompt. -/
theorem createCacheKey_collision_crossPrompt_hit :
    createCacheKey "Red Car!" {} = "image_dall-e-3_1024x1024_standard_vivid_red_car_"
    ∧ "Red Car!" ≠ "red car?"
    ∧ createCacheKey "Red Car!" {} = createCacheKey "red car?" {}
    ∧ String.mk (List.replicate 60 'a')
        ≠ String.mk (List.replicate 50 'a' ++ List.replicate 10 'b')
    ∧ createCacheKey (String.mk (List.replicate 60 'a')) {}
        = createCacheKey (String.mk (List.replicate 50 'a' ++ List.replicate 10 'b')) {}
    ∧ generateProductImage (fun _ => Except.error ⟨none, "down"⟩) (some "sk")
        "red car?" {} ⟨5000, 0, cacheSet [] (createCacheKey "Red Car!" {}) demoResult 4000⟩
      = ⟨Except.ok { demoResult with fromCache := true, attempts := 0 },
          ⟨5000, 0, cacheSet [] (createCacheKey "Red Car!" {}) demoResult 4000⟩,
          [Event.cacheRead (createCacheKey "red car?" {}) true]⟩ := by
  refine ⟨by decide, by decide, by decide, by decide, by decide, by decide⟩
